import Mathlib

/-!
Shallow embedding of the fund intraday-change estimator
(`src/stock_api.py`, `src/fund_realtime.py`, `src/api/index.py`).

Conventions of the embedding:
* Python floats are modelled as exact rationals (`ℚ`); IEEE rounding is out
  of scope.
* A Python function that returns an `{'error': msg}` dict is modelled as
  `Except String α`; an uncaught Python exception inside a `try` block that
  is converted to an error dict is modelled the same way, and a function that
  can raise without a handler (`parse_stock_code` on an empty string) returns
  `Option`, `none` marking the raise.
* Network effects are modelled by an environment (`Env`) recording the result
  each upstream call would produce; the list of codes passed to
  `get_stock_realtime` is returned alongside the result as an explicit trace.
-/

namespace Mjyj

attribute [local semireducible] Rat.mul Rat.add Rat.inv Rat.sub

/-- Python `s.startswith(pre)` (on whole strings; the byte-position-based
`String.startsWith` of core Lean does not evaluate inside proofs, so the
embedding works on the character lists directly). -/
def strStarts (s pre : String) : Bool :=
  pre.data.isPrefixOf s.data

/-- Python slicing `s[n:]`. -/
def strDrop (s : String) (n : Nat) : String :=
  ⟨s.data.drop n⟩

/-- Python `s.split(sep)` for a one-character separator, on character
lists: keeps empty segments, and splitting the empty string yields `[[]]`. -/
def splitOnChar (sep : Char) : List Char → List (List Char)
  | [] => [[]]
  | c :: cs =>
    let r := splitOnChar sep cs
    if c = sep then [] :: r
    else
      match r with
      | [] => [[c]]
      | h :: t => (c :: h) :: t

/-- Python `s.split(sep)` for a one-character separator. -/
def pySplitChar (s : String) (sep : Char) : List String :=
  (splitOnChar sep s.data).map (fun l => ⟨l⟩)

/-- Python truthiness of an optional string: `None` and `''` are falsy. -/
def pyTruthy : Option String → Bool
  | none => false
  | some s => !(s = "")

/-- Python `a or b` on optional strings (returns `b` when `a` is falsy). -/
def pyOrOpt (a b : Option String) : Option String :=
  if pyTruthy a then a else b

/-- Python `a or b` where `a` is an optional string and `b` a string. -/
def pyOrStr (a : Option String) (b : String) : String :=
  match a with
  | none => b
  | some s => if s = "" then b else s

/-- Characters stripped by Python `str.strip()` (ASCII whitespace; the
Unicode space characters Python also strips are not used by this program). -/
def pyWs (c : Char) : Bool :=
  c = ' ' || c = '\t' || c = '\n' || c = '\r' || c.toNat = 11 || c.toNat = 12

/-- Python `str.strip()`. -/
def pyStrip (s : String) : String :=
  ⟨((s.data.dropWhile pyWs).reverse.dropWhile pyWs).reverse⟩

/-- Python `str.upper()` (ASCII case mapping; the program only uppercases
market ticker strings). -/
def pyUpper (s : String) : String :=
  ⟨s.data.map Char.toUpper⟩

/-- Python `str.isdigit` on one character: true on ASCII digits and on the
other Unicode decimal/digit characters; we include the non-ASCII ranges
exercised in this development (fullwidth digits, Arabic-Indic, Devanagari,
and the superscript digits, all of which Python's `str.isdigit` accepts). -/
def pyIsDigit (c : Char) : Bool :=
  c.isDigit
  || (0xFF10 ≤ c.toNat && c.toNat ≤ 0xFF19)
  || (0x0660 ≤ c.toNat && c.toNat ≤ 0x0669)
  || (0x06F0 ≤ c.toNat && c.toNat ≤ 0x06F9)
  || (0x0966 ≤ c.toNat && c.toNat ≤ 0x096F)
  || c.toNat = 0xB2 || c.toNat = 0xB3 || c.toNat = 0xB9

/-- Python `str.isdigit()`: nonempty and every character a digit. -/
def pyIsDigitStr (s : String) : Bool :=
  !(s = "") && s.data.all pyIsDigit

/-- Python `str.zfill(w)`: left-pad with `'0'` to width `w`, keeping a
leading sign in place. -/
def zfill (w : Nat) (s : String) : String :=
  if w ≤ s.length then s
  else
    let pad := List.replicate (w - s.length) '0'
    match s.data with
    | '+' :: t => ⟨'+' :: (pad ++ t)⟩
    | '-' :: t => ⟨'-' :: (pad ++ t)⟩
    | t => ⟨pad ++ t⟩

/-- Value of a list of ASCII digit characters. -/
def digitsVal (ds : List Char) : Nat :=
  ds.foldl (fun a c => 10 * a + (c.toNat - 48)) 0

/-- Python `float(s)` on finite decimal literals (optional sign, optional
fractional part, optional exponent); `inf`/`nan`/underscore separators are
not produced by the quote feeds and are not modelled. `none` models a
`ValueError`. -/
def pyFloat? (s : String) : Option ℚ :=
  let cs := (pyStrip s).data
  let sgn : ℚ := if cs.head? = some '-' then -1 else 1
  let cs := if cs.head? = some '-' || cs.head? = some '+' then cs.tail else cs
  let ip := cs.takeWhile Char.isDigit
  let cs := cs.dropWhile Char.isDigit
  let (fp, cs) :=
    match cs with
    | '.' :: t => (t.takeWhile Char.isDigit, t.dropWhile Char.isDigit)
    | t => (([] : List Char), t)
  if ip.isEmpty && fp.isEmpty then none
  else
    let mant : ℚ := (digitsVal ip : ℚ) + (digitsVal fp : ℚ) / ((10 : ℚ) ^ fp.length)
    match cs with
    | [] => some (sgn * mant)
    | e :: t =>
      if e = 'e' || e = 'E' then
        let esgn : ℤ := if t.head? = some '-' then -1 else 1
        let t := if t.head? = some '-' || t.head? = some '+' then t.tail else t
        let ed := t.takeWhile Char.isDigit
        let rest := t.dropWhile Char.isDigit
        if ed.isEmpty || !rest.isEmpty then none
        else some (sgn * mant * (10 : ℚ) ^ (esgn * (digitsVal ed : ℤ)))
      else none

/-- `float(x) if x else 0`, as used on quote payload fields. -/
def floatOrZero (s : String) : Option ℚ :=
  if s = "" then some 0 else pyFloat? s

/-- Whether `pat` occurs as a contiguous substring of `s`
(Python `pat in s`), on character lists. -/
def hasSubList (pat : List Char) : List Char → Bool
  | [] => pat.isEmpty
  | c :: cs => pat.isPrefixOf (c :: cs) || hasSubList pat cs

/-- Python `pat in s` for strings. -/
def strHas (s pat : String) : Bool :=
  hasSubList pat.data s.data

/-- Python `f"{q:.2f}"`: fixed two decimal places, ties to even
(Python formats the exact binary double; on the rationals that arise here
the tie case does not occur). -/
def fmt2 (q : ℚ) : String :=
  let a : ℚ := |q| * 100
  let fl : ℤ := ⌊a⌋
  let r : ℚ := a - (fl : ℚ)
  let n : ℤ :=
    if r > 1/2 then fl + 1
    else if r < 1/2 then fl
    else if fl % 2 = 0 then fl else fl + 1
  let m : Nat := n.toNat
  let fracPart := m % 100
  let fracStr := (if fracPart < 10 then "0" else "") ++ toString fracPart
  (if q < 0 then "-" else "") ++ toString (m / 100) ++ "." ++ fracStr

/-- Decidable equality for `Except`, used to evaluate concrete runs. -/
instance exceptDecEq {ε α : Type} [DecidableEq ε] [DecidableEq α] :
    DecidableEq (Except ε α) := fun x y =>
  match x, y with
  | Except.ok a, Except.ok b =>
    if h : a = b then isTrue (by rw [h])
    else isFalse (by intro hh; cases hh; exact h rfl)
  | Except.ok _, Except.error _ => isFalse (by intro hh; cases hh)
  | Except.error _, Except.ok _ => isFalse (by intro hh; cases hh)
  | Except.error e, Except.error f =>
    if h : e = f then isTrue (by rw [h])
    else isFalse (by intro hh; cases hh; exact h rfl)

/-! ### Data model (spec.md §3) -/

/-- A parsed real-time quote record (`QuoteRecord`). -/
structure Quote where
  code : String
  name : String
  market : String
  current_price : ℚ
  yesterday_close : ℚ
  open_price : ℚ
  change : ℚ
  change_percent : ℚ
  deriving DecidableEq

/-- One disclosed holding row (`Holding`). -/
structure Holding where
  rank : Nat
  stock_code : String
  stock_name : String
  ratio : ℚ
  deriving DecidableEq

/-- Result of `get_fund_info` (`FundMeta`); the Python function never raises
(it degrades to a placeholder inside its own handler). -/
structure FundInfo where
  fund_code : String
  fund_name : String
  is_etf_feeder : Bool
  etf_code : Option String
  etf_name : Option String
  deriving DecidableEq

/-- The successful payload of `get_fund_holdings`. -/
structure HoldingsInfo where
  fund_code : String
  fund_name : String
  quarter : String
  holdings : List Holding
  deriving DecidableEq

/-- One row of `stock_details` (`StockDetail`). -/
structure StockDetail where
  stock_code : String
  stock_name : String
  ratio : ℚ
  change_percent : ℚ
  weighted_change : ℚ
  status : String
  market : String
  deriving DecidableEq

/-- The successful result of `calculate_fund_change` (`EstimationResult`).
`etf_code`/`etf_name` keys exist only in the feeder-branch dict, hence
`Option`. -/
structure FundResult where
  fund_code : String
  fund_name : String
  quarter : String
  is_etf_feeder : Bool
  etf_code : Option String
  etf_name : Option String
  stock_details : List StockDetail
  total_ratio : ℚ
  estimated_change : ℚ
  update_time : String
  deriving DecidableEq

/-! ### Code classifier: `parse_stock_code` (stock_api.py:10-52, identical
copy at api/index.py:16-36). `none` models the `IndexError` Python raises at
`code[0]` when the stripped input is empty. -/

/-- `parse_stock_code` from the source; returns `none` exactly when the
Python original raises. -/
def parse_stock_code (code : String) : Option (String × String) :=
  let c := pyUpper (pyStrip code)
  if strStarts c "HK" then some ("HK", zfill 5 (strDrop c 2))
  else if strStarts c "US" then some ("US", strDrop c 2)
  else if strStarts c "SH" then some ("SH", strDrop c 2)
  else if strStarts c "SZ" then some ("SZ", strDrop c 2)
  else if pyIsDigitStr c && c.length = 5 then some ("HK", zfill 5 c)
  else if pyIsDigitStr c && c.length = 6 then
    if strStarts c "6" then some ("SH", c) else some ("SZ", c)
  else
    match c.data with
    | [] => none
    | ch :: _ => if ch.isAlpha then some ("US", c) else some ("UNKNOWN", c)

/-! ### Quote parsers (stock_api.py:77-162, api/index.py:51-105).
Each takes the raw upstream payload text; the network fetch itself is
outside the parser. The two `_get_a_stock` copies differ only in the ETF
market label, so they share a core with a flag. -/

/-- The market label of an A-share quote: the api/index.py copy relabels
ETF-prefixed codes (`51`/`56`/`15`/`159`) as `"ETF"`; the stock_api.py copy
always uses `"A"`. -/
def aMarketLabel (etfLabel : Bool) (code : String) : String :=
  if etfLabel && (strStarts code "51" || strStarts code "56"
      || strStarts code "15" || strStarts code "159") then "ETF" else "A"

/-- Shared change computation: `change_percent = change/yc*100 if yc > 0 else 0`. -/
def changePct (current yc : ℚ) : ℚ :=
  if yc > 0 then (current - yc) / yc * 100 else 0

/-- Core of `_get_a_stock`; `etfLabel` is `true` for the api/index.py copy
(which relabels ETF-prefixed codes) and `false` for the stock_api.py copy. -/
def aStockCore (etfLabel : Bool) (full_code data : String) : Except String Quote :=
  if strHas data "FAILED" || strHas data "=\"\"" then Except.error "获取失败，请检查代码"
  else
    match pySplitChar data '"' with
    | _ :: seg :: _ =>
      let info := pySplitChar seg ','
      if info.length < 4 then Except.error "数据解析失败"
      else
        match floatOrZero (info.getD 1 ""), floatOrZero (info.getD 2 ""),
            floatOrZero (info.getD 3 "") with
        | some op, some yc, some cur =>
          let code := strDrop full_code 2
          Except.ok
            { code := code, name := info.getD 0 ""
              market := aMarketLabel etfLabel code
              current_price := cur, yesterday_close := yc, open_price := op
              change := cur - yc, change_percent := changePct cur yc }
        | _, _, _ => Except.error "请求失败: float conversion"
    | _ => Except.error "请求失败: list index out of range"

/-- `_get_a_stock` of stock_api.py (always labels the market `"A"`). -/
def stockApi_get_a_stock (full_code data : String) : Except String Quote :=
  aStockCore false full_code data

/-- `_get_a_stock` of api/index.py (labels ETF-prefixed codes `"ETF"`). -/
def apiIndex_get_a_stock (full_code data : String) : Except String Quote :=
  aStockCore true full_code data

/-- `_get_hk_stock` (identical in stock_api.py and api/index.py). -/
def get_hk_stock (symbol data : String) : Except String Quote :=
  let code := zfill 5 symbol
  if strHas data "FAILED" || strHas data "=\"\"" then Except.error "获取失败，请检查代码"
  else
    match pySplitChar data '"' with
    | _ :: seg :: _ =>
      let info := pySplitChar seg ','
      if info.length < 7 then Except.error "数据解析失败"
      else
        match floatOrZero (info.getD 2 ""), floatOrZero (info.getD 3 ""),
            floatOrZero (info.getD 6 "") with
        | some op, some yc, some cur =>
          Except.ok
            { code := code, name := info.getD 1 "", market := "HK"
              current_price := cur, yesterday_close := yc, open_price := op
              change := cur - yc, change_percent := changePct cur yc }
        | _, _, _ => Except.error "请求失败: float conversion"
    | _ => Except.error "请求失败: list index out of range"

/-! ### Estimation engine (fund_realtime.py:163-278, identical copy at
api/index.py:234-314). Network calls are abstracted by `Env`: `fund_info`
is the value `get_fund_info fund_code` returns, `holdings_info` the value
`get_fund_holdings fund_code top` returns, and `quote` maps each code passed
to `get_stock_realtime` to its result. Every code handed to
`get_stock_realtime` is also logged in an explicit trace list. -/

/-- The network environment of one `calculate_fund_change` run. -/
structure Env where
  fund_info : FundInfo
  holdings_info : Except String HoldingsInfo
  quote : String → Except String Quote
  now : String

/-- `guess_market` (fund_realtime.py:163-175). -/
def guess_market (stock_code stock_name : String) : String :=
  if stock_code.length = 5 then "hk" ++ stock_code
  else if stock_code.length = 6 then
    if strStarts stock_code "00"
        && !(strStarts stock_code "000" || strStarts stock_code "002"
          || strStarts stock_code "003") then
      "hk" ++ stock_code
    else if strStarts stock_code "6" then "sh" ++ stock_code
    else "sz" ++ stock_code
  else stock_code

/-- The quote lookup for one holding, with the single Hong-Kong retry on the
bare code (fund_realtime.py:238-242); also returns the codes requested. -/
def resolve_quote (q : String → Except String Quote) (h : Holding) :
    Except String Quote × List String :=
  let code := guess_market h.stock_code h.stock_name
  match q code with
  | Except.ok info => (Except.ok info, [code])
  | Except.error e =>
    if strStarts code "hk" then (q h.stock_code, [code, h.stock_code])
    else (Except.error e, [code])

/-- Output of the per-holding loop body: the detail row, the increments to
the two accumulators, and the quote codes requested. -/
structure HRow where
  detail : StockDetail
  dw : ℚ
  dr : ℚ
  calls : List String
  deriving DecidableEq

/-- Body of the per-holding loop (fund_realtime.py:237-267). -/
def process_holding (q : String → Except String Quote) (h : Holding) : HRow :=
  match resolve_quote q h with
  | (Except.ok info, cs) =>
    let wc := h.ratio * info.change_percent / 100
    { detail := { stock_code := h.stock_code, stock_name := h.stock_name
                  ratio := h.ratio, change_percent := info.change_percent
                  weighted_change := wc, status := "ok", market := info.market }
      dw := wc, dr := h.ratio, calls := cs }
  | (Except.error _, cs) =>
    { detail := { stock_code := h.stock_code, stock_name := h.stock_name
                  ratio := h.ratio, change_percent := 0, weighted_change := 0
                  status := "error", market := "?" }
      dw := 0, dr := 0, calls := cs }

/-- Output of the whole per-holding loop. -/
structure LoopOut where
  details : List StockDetail
  total_weighted_change : ℚ
  total_ratio : ℚ
  calls : List String
  deriving DecidableEq

/-- The per-holding loop, holding by holding (addition on `ℚ` is
associative and commutative, so the running `+=` accumulators equal these
structurally recursive sums). -/
def holdings_loop (q : String → Except String Quote) : List Holding → LoopOut
  | [] => { details := [], total_weighted_change := 0, total_ratio := 0, calls := [] }
  | h :: t =>
    let r := process_holding q h
    let rest := holdings_loop q t
    { details := r.detail :: rest.details
      total_weighted_change := r.dw + rest.total_weighted_change
      total_ratio := r.dr + rest.total_ratio
      calls := r.calls ++ rest.calls }

/-- `sum(h['ratio'] for h in holdings)`. -/
def ratio_sum (hs : List Holding) : ℚ :=
  (hs.map (fun h => h.ratio)).sum

/-- The too-low-coverage error message (fund_realtime.py:229-231). -/
def low_coverage_msg (total : ℚ) : String :=
  "该基金股票持仓比例过低(" ++ fmt2 total ++ "%)，可能是ETF联接基金、债券基金或货币基金，暂不支持估算"

/-- The disclosed-holdings path of `calculate_fund_change`
(fund_realtime.py:219-278; everything after the feeder block), with the
trace of the quote codes the per-holding loop requested. -/
def holdings_path (env : Env) (fund_code : String) (top : ℤ) :
    Except String FundResult × List String :=
  match env.holdings_info with
  | Except.error e => (Except.error e, [])
  | Except.ok hi =>
    let total := ratio_sum hi.holdings
    if total < 5 then (Except.error (low_coverage_msg total), [])
    else
      let lp := holdings_loop env.quote hi.holdings
      (Except.ok
        { fund_code := fund_code, fund_name := hi.fund_name
          quarter := hi.quarter, is_etf_feeder := false
          etf_code := none, etf_name := none
          stock_details := lp.details, total_ratio := lp.total_ratio
          estimated_change := lp.total_weighted_change
          update_time := env.now }, lp.calls)

/-- Market qualification of the feeder's ETF code
(fund_realtime.py:190-193). -/
def feeder_full (ec : String) : String :=
  if strStarts ec "51" || strStarts ec "56" then "sh" ++ ec else "sz" ++ ec

/-- `calculate_fund_change` (fund_realtime.py:178-278 and the identical
api/index.py:246-314), paired with the list of codes passed to
`get_stock_realtime`. `top` only parameterizes the `get_fund_holdings` call,
whose result `env.holdings_info` already records. -/
def calculate_fund_change_t (env : Env) (fund_code : String) (top : ℤ)
    (manual_etf : Option String) : Except String FundResult × List String :=
  let fi := env.fund_info
  let etf_code := pyOrOpt manual_etf fi.etf_code
  if (fi.is_etf_feeder || pyTruthy manual_etf) && pyTruthy etf_code then
    let ec := etf_code.getD ""
    let full := feeder_full ec
    match env.quote full with
    | Except.ok qi =>
      let nm := pyOrStr fi.etf_name qi.name
      (Except.ok
        { fund_code := fund_code, fund_name := fi.fund_name, quarter := "实时"
          is_etf_feeder := true, etf_code := some ec, etf_name := some nm
          stock_details := [{ stock_code := ec, stock_name := nm, ratio := 95
                              change_percent := qi.change_percent
                              weighted_change := qi.change_percent * (19/20)
                              status := "ok", market := "ETF" }]
          total_ratio := 95
          estimated_change := qi.change_percent * (19/20)
          update_time := env.now }, [full])
    | Except.error _ =>
      let r := holdings_path env fund_code top
      (r.1, full :: r.2)
  else holdings_path env fund_code top

/-- `calculate_fund_change` proper (the returned dict, without the trace). -/
def calculate_fund_change (env : Env) (fund_code : String) (top : ℤ)
    (manual_etf : Option String) : Except String FundResult :=
  (calculate_fund_change_t env fund_code top manual_etf).1

/-- Whether the feeder short-circuit fires (guard holds and the ETF quote
fetch succeeds). -/
def feeder_branch_returns (env : Env) (manual_etf : Option String) : Bool :=
  let etf_code := pyOrOpt manual_etf env.fund_info.etf_code
  ((env.fund_info.is_etf_feeder || pyTruthy manual_etf) && pyTruthy etf_code)
    && (match env.quote (feeder_full (etf_code.getD "")) with
        | Except.ok _ => true
        | Except.error _ => false)

/-! ### Inbound validation (api/index.py:329-337 and
fund_realtime.py:330-333). -/

/-- The fixed validation-error message of the serverless handler. -/
def validation_msg : String := "请提供有效的6位基金代码，如 ?code=110011"

/-- The serverless handler's rejection test
(`not code or not code.isdigit() or len(code) != 6`). -/
def handler_rejects (code : String) : Bool :=
  code = "" || !(pyIsDigitStr code) || !(code.length = 6)

/-- The CLI's rejection test after `strip()`
(`not code.isdigit() or len(code) != 6`). -/
def main_rejects (raw : String) : Bool :=
  let code := pyStrip raw
  !(pyIsDigitStr code) || !(code.length = 6)

/-- The payload `handler.do_GET` serializes, with the quote-fetch trace: the
fixed validation error (with no fetches), or the engine's result
(`calculate_fund_change(code)` with default arguments `top=10`,
`manual_etf=None`). -/
def do_GET_t (env : Env) (code : String) : Except String FundResult × List String :=
  if handler_rejects code then (Except.error validation_msg, [])
  else calculate_fund_change_t env code 10 none

/-- The payload `handler.do_GET` serializes. -/
def do_GET_payload (env : Env) (code : String) : Except String FundResult :=
  (do_GET_t env code).1

/-! ### Concrete fixtures used by witnesses and counterexamples -/

/-- Quote fixture: Kweichow Moutai, +2%. -/
def qMT : Quote :=
  { code := "600519", name := "贵州茅台", market := "A", current_price := 102,
    yesterday_close := 100, open_price := 100, change := 2, change_percent := 2 }

/-- Quote fixture: Ping An Bank, −1%. -/
def qPA : Quote :=
  { code := "000001", name := "平安银行", market := "A", current_price := 99/10,
    yesterday_close := 10, open_price := 10, change := -1/10, change_percent := -1 }

/-- Quote fixture: SSE 50 ETF, +1.2%. -/
def qE50 : Quote :=
  { code := "510050", name := "上证50ETF", market := "ETF", current_price := 3,
    yesterday_close := 3, open_price := 3, change := 0, change_percent := 6/5 }

/-- Holding fixture: Moutai at 30% of net value. -/
def hMT : Holding :=
  { rank := 1, stock_code := "600519", stock_name := "贵州茅台", ratio := 30 }

/-- Holding fixture: Ping An Bank at 20% of net value. -/
def hPA : Holding :=
  { rank := 2, stock_code := "000001", stock_name := "平安银行", ratio := 20 }

/-- Holding fixture: a Hong-Kong listed stock (5-digit code). -/
def hHK : Holding :=
  { rank := 1, stock_code := "00700", stock_name := "腾讯控股", ratio := 8 }

/-- Environment of the C7 scenario: a non-feeder fund holding Moutai (30%)
and Ping An Bank (20%), with quotes +2% and −1%. -/
def env7 : Env :=
  { fund_info := { fund_code := "161039", fund_name := "某指数基金",
                   is_etf_feeder := false, etf_code := none, etf_name := none },
    holdings_info := Except.ok
      { fund_code := "161039", fund_name := "某指数基金", quarter := "2025年第2季度",
        holdings := [hMT, hPA] },
    quote := fun c =>
      if c = "sh600519" then Except.ok qMT
      else if c = "sz000001" then Except.ok qPA
      else Except.error "获取失败，请检查代码",
    now := "2026-10-12 10:00:00" }

/-- Environment of a detected feeder fund whose ETF quote succeeds. -/
def envF : Env :=
  { fund_info := { fund_code := "110011", fund_name := "某ETF联接A",
                   is_etf_feeder := true, etf_code := some "510050",
                   etf_name := some "上证50ETF" },
    holdings_info := Except.error "未找到持仓数据",
    quote := fun c => if c = "sh510050" then Except.ok qE50
      else Except.error "获取失败，请检查代码",
    now := "2026-10-12 10:00:00" }

/-- Holding fixture: a 3.2% Moutai position. -/
def hSmall : Holding :=
  { rank := 1, stock_code := "600519", stock_name := "贵州茅台", ratio := 16/5 }

/-- Holdings fixture whose ratios sum to 3.2%. -/
def hiLow : HoldingsInfo :=
  { fund_code := "000198", fund_name := "某货币基金", quarter := "2025年第2季度",
    holdings := [hSmall] }

/-- Environment of a fund whose disclosed ratios sum to 3.2%. -/
def envLow : Env :=
  { fund_info := { fund_code := "000198", fund_name := "某货币基金",
                   is_etf_feeder := false, etf_code := none, etf_name := none },
    holdings_info := Except.ok hiLow,
    quote := fun _ => Except.error "获取失败，请检查代码",
    now := "2026-10-12 10:00:00" }

/-- Environment of a detected feeder fund whose ETF quote fails, so the
computation falls through to the disclosed-holdings path. -/
def envFall : Env :=
  { fund_info := { fund_code := "110011", fund_name := "某ETF联接A",
                   is_etf_feeder := true, etf_code := some "510050",
                   etf_name := some "上证50ETF" },
    holdings_info := Except.ok
      { fund_code := "110011", fund_name := "某ETF联接A", quarter := "2025年第2季度",
        holdings := [hMT] },
    quote := fun c => if c = "sh600519" then Except.ok qMT
      else Except.error "获取失败，请检查代码",
    now := "2026-10-12 10:00:00" }

/-- Environment whose holdings fetch fails with a distinctive message,
used to observe that the serverless handler invoked the engine. -/
def envC6 : Env :=
  { fund_info := { fund_code := "０００００１", fund_name := "未知基金",
                   is_etf_feeder := false, etf_code := none, etf_name := none },
    holdings_info := Except.error "持仓数据解析失败",
    quote := fun _ => Except.error "获取失败，请检查代码",
    now := "2026-10-12 10:00:00" }

/-! ### Shared lemmas -/

/-- The per-holding loop is the pointwise map of the loop body, with the two
accumulators equal to the sums of the per-holding increments and the quote
trace to the concatenation of the per-holding traces. -/
theorem holdings_loop_spec (q : String → Except String Quote) (hs : List Holding) :
    (holdings_loop q hs).details = hs.map (fun x => (process_holding q x).detail) ∧
    (holdings_loop q hs).total_weighted_change
      = (hs.map (fun x => (process_holding q x).dw)).sum ∧
    (holdings_loop q hs).total_ratio
      = (hs.map (fun x => (process_holding q x).dr)).sum ∧
    (holdings_loop q hs).calls
      = (hs.map (fun x => (process_holding q x).calls)).flatten := by
  induction hs with
  | nil => simp [holdings_loop]
  | cons h t ih =>
    simp [holdings_loop, ih.1, ih.2.1, ih.2.2.1, ih.2.2.2]

/-- When the feeder short-circuit does not fire, `calculate_fund_change`
returns exactly what the disclosed-holdings path returns. -/
theorem calc_no_feeder (env : Env) (fc : String) (top : ℤ) (metf : Option String)
    (h : feeder_branch_returns env metf = false) :
    calculate_fund_change env fc top metf = (holdings_path env fc top).1 := by
  unfold calculate_fund_change calculate_fund_change_t
  unfold feeder_branch_returns at h
  by_cases hg : ((env.fund_info.is_etf_feeder || pyTruthy metf)
      && pyTruthy (pyOrOpt metf env.fund_info.etf_code)) = true
  · simp only [hg, Bool.true_and, if_true] at h ⊢
    cases hquote : env.quote
        (feeder_full ((pyOrOpt metf env.fund_info.etf_code).getD "")) with
    | ok qv => rw [hquote] at h; simp at h
    | error e => rfl
  · simp only [Bool.not_eq_true] at hg
    simp [hg]

/-- Claim C7: for the concrete non-feeder scenario with holdings
`[{ratio:30, code:"600519"}, {ratio:20, code:"000001"}]` and quote changes
`+2.0` and `-1.0`, `calculate_fund_change` estimates `0.4` with
`total_ratio = 50`. -/
theorem c7_two_holdings_scenario :
    (calculate_fund_change env7 "161039" 0 none).toOption.map
        (fun r => (r.estimated_change, r.total_ratio))
      = some ((2/5 : ℚ), (50 : ℚ)) := by
  decide

/-- Claim C1: when the fund metadata marks the fund as an ETF feeder (or a
manual ETF override is given), an ETF code is known, and the ETF quote fetch
succeeds, the result has `total_ratio = 95.0`,
`estimated_change = change_percent * 0.95`, and a single synthetic detail
row with ratio `95.0`. -/
theorem c1_feeder_shortcut (env : Env) (fc : String) (top : ℤ)
    (metf : Option String) (ec : String) (qi : Quote)
    (hfeeder : env.fund_info.is_etf_feeder = true ∨ pyTruthy metf = true)
    (hec : pyOrOpt metf env.fund_info.etf_code = some ec)
    (hne : ec ≠ "")
    (hq : env.quote (feeder_full ec) = Except.ok qi) :
    ∃ r, calculate_fund_change env fc top metf = Except.ok r ∧
      r.total_ratio = 95 ∧
      r.estimated_change = qi.change_percent * (19/20) ∧
      ∃ d, r.stock_details = [d] ∧ d.ratio = 95 := by
  have hguard : (env.fund_info.is_etf_feeder || pyTruthy metf) = true := by
    rcases hfeeder with h | h <;> simp [h]
  have hty : pyTruthy (some ec) = true := by simp [pyTruthy, hne]
  simp only [calculate_fund_change, calculate_fund_change_t]
  rw [hec]
  simp only [hguard, hty, Bool.and_self, if_true, Option.getD_some]
  rw [hq]
  exact ⟨_, rfl, rfl, rfl, _, rfl, rfl⟩

/-- Witness for C1 at the concrete feeder environment `envF`. -/
theorem c1_feeder_shortcut_witness :
    ∃ r, calculate_fund_change envF "110011" 0 none = Except.ok r ∧
      r.total_ratio = 95 ∧
      r.estimated_change = qE50.change_percent * (19/20) ∧
      ∃ d, r.stock_details = [d] ∧ d.ratio = 95 :=
  c1_feeder_shortcut envF "110011" 0 none "510050" qE50
    (Or.inl rfl) (by decide) (by decide) (by decide)

/-- A quote oracle for which every fetch fails. -/
def qerr : String → Except String Quote :=
  fun _ => Except.error "获取失败，请检查代码"

/-- Claim C2: when the disclosed ratios sum to strictly less than 5.0 (and
the feeder shortcut did not already return), `calculate_fund_change` returns
the error value built around the formatted coverage percentage, and the
per-holding loop performs no quote fetches at all. -/
theorem c2_low_coverage (env : Env) (fc : String) (top : ℤ) (metf : Option String)
    (hi : HoldingsInfo)
    (h1 : env.holdings_info = Except.ok hi)
    (h2 : ratio_sum hi.holdings < 5)
    (h3 : feeder_branch_returns env metf = false) :
    calculate_fund_change env fc top metf
      = Except.error (low_coverage_msg (ratio_sum hi.holdings)) ∧
    (holdings_path env fc top).2 = [] := by
  have he := calc_no_feeder env fc top metf h3
  have hp : holdings_path env fc top
      = (Except.error (low_coverage_msg (ratio_sum hi.holdings)), []) := by
    unfold holdings_path
    rw [h1]
    simp [h2]
  exact ⟨by rw [he, hp], by rw [hp]⟩

/-- Witness for C2 at the concrete 3.2%-coverage environment `envLow`. -/
theorem c2_low_coverage_witness :
    calculate_fund_change envLow "000198" 0 none
      = Except.error (low_coverage_msg (16/5)) ∧
    (holdings_path envLow "000198" 0).2 = [] := by
  have h := c2_low_coverage envLow "000198" 0 none hiLow
    (by decide) (by decide) (by decide)
  have heq : ratio_sum hiLow.holdings = 16/5 := by decide
  rw [heq] at h
  exact h

/-- Claim C3: a holding whose quote lookup (after the possible Hong-Kong
retry) fails is still recorded in `stock_details` with status `"error"`,
`change_percent = 0` and `weighted_change = 0`, and contributes `0` to both
accumulators, which sum exactly the per-holding increments. -/
theorem c3_failed_holding (q : String → Except String Quote) (hs : List Holding)
    (h : Holding) (e : String)
    (hf : (resolve_quote q h).1 = Except.error e) :
    (process_holding q h).detail
      = { stock_code := h.stock_code, stock_name := h.stock_name, ratio := h.ratio,
          change_percent := 0, weighted_change := 0, status := "error", market := "?" } ∧
    (process_holding q h).dw = 0 ∧ (process_holding q h).dr = 0 ∧
    (holdings_loop q hs).details = hs.map (fun x => (process_holding q x).detail) ∧
    (holdings_loop q hs).total_weighted_change
      = (hs.map (fun x => (process_holding q x).dw)).sum ∧
    (holdings_loop q hs).total_ratio
      = (hs.map (fun x => (process_holding q x).dr)).sum := by
  have hl := holdings_loop_spec q hs
  refine ⟨?_, ?_, ?_, hl.1, hl.2.1, hl.2.2.1⟩ <;>
  · unfold process_holding
    rcases hr : resolve_quote q h with ⟨res, cs⟩
    rw [hr] at hf
    cases res with
    | ok info => exact Except.noConfusion hf
    | error e2 => rfl

/-- Witness for C3: a failing quote oracle on the Moutai holding. -/
theorem c3_failed_holding_witness :
    (process_holding qerr hMT).detail
      = { stock_code := hMT.stock_code, stock_name := hMT.stock_name,
          ratio := hMT.ratio, change_percent := 0, weighted_change := 0,
          status := "error", market := "?" } ∧
    (process_holding qerr hMT).dw = 0 ∧ (process_holding qerr hMT).dr = 0 ∧
    (holdings_loop qerr [hMT]).details
      = [hMT].map (fun x => (process_holding qerr x).detail) ∧
    (holdings_loop qerr [hMT]).total_weighted_change
      = ([hMT].map (fun x => (process_holding qerr x).dw)).sum ∧
    (holdings_loop qerr [hMT]).total_ratio
      = ([hMT].map (fun x => (process_holding qerr x).dr)).sum :=
  c3_failed_holding qerr [hMT] hMT "获取失败，请检查代码" (by decide)

/-- Claim C8: in the per-holding loop, a failing first fetch is retried on
the bare stock code exactly when `guess_market` produced a Hong-Kong
qualified code, and no second fetch happens in any other situation. -/
theorem c8_hk_retry (q : String → Except String Quote) (h : Holding) :
    (∀ e, strStarts (guess_market h.stock_code h.stock_name) "hk" = true →
       q (guess_market h.stock_code h.stock_name) = Except.error e →
       (process_holding q h).calls
         = [guess_market h.stock_code h.stock_name, h.stock_code]) ∧
    (∀ e, strStarts (guess_market h.stock_code h.stock_name) "hk" = false →
       q (guess_market h.stock_code h.stock_name) = Except.error e →
       (process_holding q h).calls = [guess_market h.stock_code h.stock_name]) ∧
    (∀ info, q (guess_market h.stock_code h.stock_name) = Except.ok info →
       (process_holding q h).calls = [guess_market h.stock_code h.stock_name]) := by
  refine ⟨?_, ?_, ?_⟩
  · intro e hhk hq
    simp only [process_holding, resolve_quote]
    rw [hq]
    simp only [hhk, if_true]
    cases q h.stock_code <;> rfl
  · intro e hhk hq
    simp only [process_holding, resolve_quote]
    rw [hq]
    simp [hhk]
  · intro info hq
    simp only [process_holding, resolve_quote]
    rw [hq]

/-- Witness for C8: the Hong-Kong holding `00700` with a failing first
fetch is retried on the bare code. -/
theorem c8_hk_retry_witness :
    (process_holding qerr hHK).calls
      = [guess_market hHK.stock_code hHK.stock_name, hHK.stock_code] :=
  (c8_hk_retry qerr hHK).1 "获取失败，请检查代码" (by decide) (by decide)

/-- Claim C10: every successful result of the disclosed-holdings path has
`is_etf_feeder = false`, and whenever the feeder shortcut does not return
(including a detected feeder whose ETF quote fetch failed),
`calculate_fund_change` returns exactly the holdings-path result. -/
theorem c10_holdings_result_not_feeder (env : Env) (fc : String) (top : ℤ)
    (metf : Option String) :
    (∀ r, (holdings_path env fc top).1 = Except.ok r → r.is_etf_feeder = false) ∧
    (feeder_branch_returns env metf = false →
       calculate_fund_change env fc top metf = (holdings_path env fc top).1) := by
  refine ⟨?_, calc_no_feeder env fc top metf⟩
  intro r hr
  unfold holdings_path at hr
  cases hh : env.holdings_info with
  | error e => rw [hh] at hr; simp at hr
  | ok hi =>
    rw [hh] at hr
    by_cases hlt : ratio_sum hi.holdings < 5
    · simp [hlt] at hr
    · simp only [hlt, if_false] at hr
      injection hr with hr2
      rw [← hr2]

/-- The detail row the holdings path produces for `hMT` under `envFall`. -/
def dMT : StockDetail :=
  { stock_code := "600519", stock_name := "贵州茅台", ratio := 30,
    change_percent := 2, weighted_change := 3/5, status := "ok", market := "A" }

/-- The holdings-path result for the fallen-through feeder fund `envFall`. -/
def rFall : FundResult :=
  { fund_code := "110011", fund_name := "某ETF联接A", quarter := "2025年第2季度",
    is_etf_feeder := false, etf_code := none, etf_name := none,
    stock_details := [dMT], total_ratio := 30, estimated_change := 3/5,
    update_time := "2026-10-12 10:00:00" }

/-- Witness for C10 at `envFall`, a detected feeder whose ETF quote fetch
fails and whose result therefore comes from the holdings path. -/
theorem c10_holdings_result_not_feeder_witness :
    rFall.is_etf_feeder = false ∧
    calculate_fund_change envFall "110011" 0 none
      = (holdings_path envFall "110011" 0).1 :=
  ⟨(c10_holdings_result_not_feeder envFall "110011" 0 none).1 rFall (by decide),
   (c10_holdings_result_not_feeder envFall "110011" 0 none).2 (by decide)⟩

/-- Claim C4: every successfully parsed A-share quote (either copy, via
`etfLabel`) and Hong-Kong quote with `yesterday_close = 0` has
`change_percent = 0`. -/
theorem c4_zero_yesterday_close (etfLabel : Bool) (full_code sym data : String)
    (q : Quote) :
    (aStockCore etfLabel full_code data = Except.ok q →
       q.yesterday_close = 0 → q.change_percent = 0) ∧
    (get_hk_stock sym data = Except.ok q →
       q.yesterday_close = 0 → q.change_percent = 0) := by
  have hcp : ∀ cur : ℚ, changePct cur 0 = 0 := by
    intro cur
    simp [changePct]
  constructor
  · intro hok hyc
    simp only [aStockCore] at hok
    repeat' split at hok
    any_goals exact Except.noConfusion hok
    all_goals
      injection hok with hq
      subst hq
      dsimp only at hyc ⊢
      rw [hyc]
      exact hcp _
  · intro hok hyc
    simp only [get_hk_stock] at hok
    repeat' split at hok
    any_goals exact Except.noConfusion hok
    all_goals
      injection hok with hq
      subst hq
      dsimp only at hyc ⊢
      rw [hyc]
      exact hcp _

/-- A well-formed A-share payload whose `yesterday_close` field is `0`. -/
def payA0 : String := "var hq_str_sh600519=\"N,1.0,0,2.1\";"

/-- A well-formed Hong-Kong payload whose `yesterday_close` field is `0`. -/
def payH0 : String := "var hq_str_hk00700=\"EN,CN,3.0,0,9,9,3.2,x\";"

/-- The quote `payA0` parses to. -/
def qA0 : Quote :=
  { code := "600519", name := "N", market := "A", current_price := 21/10,
    yesterday_close := 0, open_price := 1, change := 21/10, change_percent := 0 }

/-- The quote `payH0` parses to. -/
def qH0 : Quote :=
  { code := "00700", name := "CN", market := "HK", current_price := 16/5,
    yesterday_close := 0, open_price := 3, change := 16/5, change_percent := 0 }

/-- Witness for C4 on concrete zero-`yesterday_close` payloads. -/
theorem c4_zero_yesterday_close_witness :
    qA0.change_percent = 0 ∧ qH0.change_percent = 0 :=
  ⟨(c4_zero_yesterday_close true "sh600519" "700" payA0 qA0).1
      (by decide) (by decide),
   (c4_zero_yesterday_close true "sh600519" "700" payH0 qH0).2
      (by decide) (by decide)⟩

/-- Claim C5 counterexample: `parse_stock_code` is not total — on the empty
string the Python original raises `IndexError` at `code[0]` (modelled as
`none`) — and on a no-rule input the symbol is not passed through unchanged
but stripped and uppercased. -/
theorem c5_counterexample :
    parse_stock_code "" = none ∧
    parse_stock_code "@abc" = some ("UNKNOWN", "@ABC") ∧
    "@ABC" ≠ "@abc" := by
  refine ⟨by decide, by decide, by decide⟩

/-- Claim C5 amended: on every input whose whitespace-stripped form is
nonempty, `parse_stock_code` returns a `(market, symbol)` pair without
raising, and when no rule matches it falls back to the Unknown market with
the stripped-and-uppercased input as the symbol. -/
theorem c5_amended (s : String) (h : pyStrip s ≠ "") :
    ∃ p, parse_stock_code s = some p ∧
      (p.1 = "UNKNOWN" → p.2 = pyUpper (pyStrip s)) := by
  have hdata : (pyUpper (pyStrip s)).data ≠ [] := by
    intro hd
    simp only [pyUpper, List.map_eq_nil_iff] at hd
    exact h (String.ext (hd.trans rfl))
  cases hc : (pyUpper (pyStrip s)).data with
  | nil => exact absurd hc hdata
  | cons ch t =>
    simp only [parse_stock_code]
    rw [hc]
    repeat' split
    all_goals
      first
        | exact ⟨_, rfl, fun _ => rfl⟩
        | exact ⟨_, rfl, fun hm => by simp at hm⟩
        | simp_all

/-- Witness for C5 at the concrete no-rule input `"@abc"`. -/
theorem c5_amended_witness :
    ∃ p, parse_stock_code "@abc" = some p ∧
      (p.1 = "UNKNOWN" → p.2 = pyUpper (pyStrip "@abc")) :=
  c5_amended "@abc" (by decide)

/-- Claim C6 counterexample: the six fullwidth digits `１２３４５６` are not
ASCII digits, yet the handler does not reject them — it invokes the engine
and returns the engine's (here: holdings-fetch) error, not the fixed
validation payload. -/
theorem c6_counterexample :
    "１２３４５６".data.all Char.isDigit = false ∧
    "１２３４５６".length = 6 ∧
    handler_rejects "１２３４５６" = false ∧
    do_GET_payload envC6 "１２３４５６" = Except.error "持仓数据解析失败" ∧
    (Except.error "持仓数据解析失败" : Except String FundResult)
      ≠ Except.error validation_msg := by
  refine ⟨by decide, by decide, by decide, by decide, by decide⟩

/-- Claim C6 amended: the inbound validation accepts exactly the length-6
strings of Python `str.isdigit` characters (which include non-ASCII digits);
every identifier failing that test gets the fixed validation payload with no
quote fetch and without invoking the engine, in both the serverless handler
and the CLI entry point (the latter after `strip()`). -/
theorem c6_amended (env : Env) (code raw : String)
    (h : pyIsDigitStr code = false ∨ code.length ≠ 6)
    (h2 : pyIsDigitStr (pyStrip raw) = false ∨ (pyStrip raw).length ≠ 6) :
    handler_rejects code = true ∧
    do_GET_t env code = (Except.error validation_msg, []) ∧
    main_rejects raw = true := by
  have hr : handler_rejects code = true := by
    unfold handler_rejects
    rcases h with h | h <;> simp [h]
  refine ⟨hr, by unfold do_GET_t; rw [hr]; simp, ?_⟩
  unfold main_rejects
  rcases h2 with h2 | h2 <;> simp [h2]

/-- Witness for C6 on a five-digit identifier and a seven-digit
whitespace-padded identifier. -/
theorem c6_amended_witness :
    handler_rejects "11001" = true ∧
    do_GET_t envC6 "11001" = (Except.error validation_msg, []) ∧
    main_rejects " 1234567 " = true :=
  c6_amended envC6 "11001" " 1234567 " (by decide) (by decide)

/-- A well-formed A-share payload for the ETF-coded security `510050`. -/
def payA : String := "var hq_str_sh510050=\"X,1.0,2.0,2.1\";"

/-- The quote `payA` parses to in stock_api.py (market label `"A"`). -/
def qSA : Quote :=
  { code := "510050", name := "X", market := "A", current_price := 21/10,
    yesterday_close := 2, open_price := 1, change := 1/10, change_percent := 5 }

/-- The quote `payA` parses to in api/index.py (market label `"ETF"`). -/
def qAI : Quote :=
  { code := "510050", name := "X", market := "ETF", current_price := 21/10,
    yesterday_close := 2, open_price := 1, change := 1/10, change_percent := 5 }

/-- Claim C9 counterexample: stock_api.py's `_get_a_stock` successfully
parses the quote of `510050` — whose code starts with `"51"` — yet labels
its market `"A"`, not `"ETF"`. -/
theorem c9_counterexample :
    stockApi_get_a_stock "sh510050" payA = Except.ok qSA ∧
    qSA.market = "A" ∧
    strStarts (strDrop "sh510050" 2) "51" = true := by
  refine ⟨by decide, by decide, by decide⟩

/-- Claim C9 amended: the ETF market label is produced only by the
api/index.py copy of `_get_a_stock`, where it appears exactly on codes
starting with `51`, `56`, `15` or `159`; the stock_api.py copy always labels
A-share quotes `"A"`. -/
theorem c9_amended (full_code data : String) (q q2 : Quote) :
    (apiIndex_get_a_stock full_code data = Except.ok q →
       q.code = strDrop full_code 2 ∧
       q.market = (if strStarts (strDrop full_code 2) "51"
           || strStarts (strDrop full_code 2) "56"
           || strStarts (strDrop full_code 2) "15"
           || strStarts (strDrop full_code 2) "159" then "ETF" else "A")) ∧
    (stockApi_get_a_stock full_code data = Except.ok q2 → q2.market = "A") := by
  constructor
  · intro hok
    simp only [apiIndex_get_a_stock, aStockCore] at hok
    repeat' split at hok
    any_goals exact Except.noConfusion hok
    injection hok with hq
    subst hq
    exact ⟨rfl, by simp [aMarketLabel]⟩
  · intro hok
    simp only [stockApi_get_a_stock, aStockCore] at hok
    repeat' split at hok
    any_goals exact Except.noConfusion hok
    injection hok with hq
    subst hq
    simp [aMarketLabel]

/-- Witness for C9 on the concrete `510050` payload in both copies. -/
theorem c9_amended_witness :
    (qAI.code = strDrop "sh510050" 2 ∧
     qAI.market = (if strStarts (strDrop "sh510050" 2) "51"
         || strStarts (strDrop "sh510050" 2) "56"
         || strStarts (strDrop "sh510050" 2) "15"
         || strStarts (strDrop "sh510050" 2) "159" then "ETF" else "A")) ∧
    qSA.market = "A" :=
  ⟨(c9_amended "sh510050" payA qAI qSA).1 (by decide),
   (c9_amended "sh510050" payA qAI qSA).2 (by decide)⟩

end Mjyj
